import Mathlib

/-!
Shallow embedding of the DailyNest application (`app.py`): a minimal
activity-sharing web application with a user store, an activity store, and
request handlers for registration, login, activity creation and three feed
queries. Database timestamps are modelled as naturals (only their ordering is
used) and SQL float columns as integers (the program stores and returns
coordinates but never computes with them).
-/

/-- `datetime` values: only ordering and equality are ever used. -/
abbrev Timestamp := Nat

/-- Row of the `user` table (`class User`, app.py lines 19-33). -/
structure User where
  id : Nat
  name : String
  email : String
  password_hash : String
  bio : Option String
  created_at : Timestamp
deriving DecidableEq

/-- Row of the `activity` table (`class Activity`, app.py lines 36-47).
`is_public` carries the column default `True` (`db.Column(db.Boolean,
default=True)`): it applies when a construction omits the field. -/
structure Activity where
  id : Nat
  user_id : Nat
  title : String
  description : String
  is_public : Bool := true
  mood : String
  category : String
  latitude : Option Int
  longitude : Option Int
  location_text : String
  created_at : Timestamp
deriving DecidableEq

/-- The relational store: the two tables, in insertion order. -/
structure Store where
  users : List User
  activities : List Activity
deriving DecidableEq

/-- Models `werkzeug.security.generate_password_hash` (external library,
outside the repository): opaque to the application except for the round trip
with `check_password_hash`. -/
def generate_password_hash (password : String) : String :=
  "pbkdf2$" ++ password

/-- Models `werkzeug.security.check_password_hash` (external library): a hash
verifies exactly against the password it was generated from. -/
def check_password_hash (h password : String) : Bool :=
  h == generate_password_hash password

/-- `User.set_password` (app.py lines 29-30). -/
def User.set_password (u : User) (password : String) : User :=
  { u with password_hash := generate_password_hash password }

/-- `User.check_password` (app.py lines 32-33). -/
def User.check_password (u : User) (password : String) : Bool :=
  check_password_hash u.password_hash password

/-- Python `str.lower()` (modelled characterwise). -/
def str_lower (s : String) : String :=
  ⟨s.data.map Char.toLower⟩

/-- wtforms `DataRequired()`: fails on empty or whitespace-only input, i.e.
passes exactly when some character is not whitespace. -/
def dataRequired (s : String) : Bool :=
  s.data.any (fun c => !c.isWhitespace)

/-- wtforms `Length(max=n)`. -/
def lengthMax (n : Nat) (s : String) : Bool :=
  s.length ≤ n

/-- wtforms `Length(min=n)`. -/
def lengthMin (n : Nat) (s : String) : Bool :=
  n ≤ s.length

/-- Models the external wtforms `Email()` validator: exactly one `@`
separating a nonempty local part from a nonempty domain containing a dot not
at either end. No claim depends on the exact acceptance set of this external
syntactic check. -/
def emailOk (s : String) : Bool :=
  let cs := s.data
  let lp := cs.takeWhile (fun c => c != '@')
  let dom := (cs.dropWhile (fun c => c != '@')).drop 1
  cs.count '@' == 1 && !lp.isEmpty && !dom.isEmpty &&
    dom.contains '.' && dom.head? != some '.' && dom.getLast? != some '.'

/-- Submitted data of `RegisterForm` (app.py lines 50-54). -/
structure RegisterFormData where
  name : String
  email : String
  password : String
  confirm : String
deriving DecidableEq

/-- `RegisterForm` validation: the validators declared on each field. -/
def RegisterFormData.validate (f : RegisterFormData) : Bool :=
  dataRequired f.name && lengthMax 120 f.name &&
  dataRequired f.email && emailOk f.email && lengthMax 120 f.email &&
  dataRequired f.password && lengthMin 6 f.password &&
  dataRequired f.confirm && f.confirm == f.password

/-- Submitted data of `LoginForm` (app.py lines 56-58). -/
structure LoginFormData where
  email : String
  password : String
deriving DecidableEq

/-- `LoginForm` validation: the validators declared on each field. -/
def LoginFormData.validate (f : LoginFormData) : Bool :=
  dataRequired f.email && emailOk f.email && dataRequired f.password

/-- Raw submission of a wtforms `FloatField`: the field absent from the POST
(`nodata`), submitted as the empty string (`emptyval`, what a blank text
input posts), or a numeric value. -/
inductive FloatFieldData where
  | nodata
  | emptyval
  | val (x : Int)
deriving DecidableEq

/-- wtforms `FloatField.process_formdata`: an absent field leaves `data`
as `None`; `float("")` raises, leaving `data = None`; a numeric submission
coerces. The field's `data` is therefore only ever `None` or a number. -/
def FloatFieldData.processed : FloatFieldData → Option Int
  | .val x => some x
  | _ => none

/-- wtforms `FloatField` process error: `float("")` raises `ValueError`
("Not a valid float value."), recorded in `process_errors`, which
`Field.validate` copies into `errors` before any declared validators run, so
the form fails validation. An absent field or a numeric value produces no
process error. -/
def FloatFieldData.hasProcessError : FloatFieldData → Bool
  | .emptyval => true
  | _ => false

/-- Submitted data of `ActivityForm` (app.py lines 60-68). -/
structure ActivityFormData where
  title : String
  description : String
  is_public : Bool
  mood : String
  category : String
  latitude : FloatFieldData
  longitude : FloatFieldData
  location_text : String
deriving DecidableEq

/-- `ActivityForm` validation: the validators declared on each field
(`latitude` and `longitude` declare none, app.py lines 66-67) together with
the `FloatField` coercion process errors, which fail `form.validate()` even
with no declared validators. -/
def ActivityFormData.validate (f : ActivityFormData) : Bool :=
  dataRequired f.title && lengthMax 200 f.title &&
  lengthMax 5000 f.description && lengthMax 30 f.mood &&
  lengthMax 50 f.category &&
  !f.latitude.hasProcessError && !f.longitude.hasProcessError &&
  lengthMax 200 f.location_text

/-- `form.X.data if form.X.data not in (None, "") else None`
(app.py lines 138-139), applied to the field's processed `data`. That `data`
is only ever `None` or a number, so the guard's `""` arm is dead: the guard
is the identity on what it actually receives. -/
def coalesceFloat (d : Option Int) : Option Int :=
  match d with
  | none => none
  | some x => some x

/-- Autoincrement primary-key assignment by the relational store. -/
def freshUserId (st : Store) : Nat :=
  (st.users.map User.id).foldr max 0 + 1

/-- Autoincrement primary-key assignment by the relational store. -/
def freshActivityId (st : Store) : Nat :=
  (st.activities.map Activity.id).foldr max 0 + 1

/-- `order_by(Activity.created_at.desc())`: newest first. -/
def orderByCreatedDesc (l : List Activity) : List Activity :=
  l.mergeSort (fun a b => decide (b.created_at ≤ a.created_at))

/-- The `home` route (app.py lines 75-79): public feed, newest first,
`limit(50)`. -/
def home_feed (s : Store) : List Activity :=
  (orderByCreatedDesc (s.activities.filter (·.is_public))).take 50

/-- The query of the `api_feed` route (app.py line 156): public feed, newest
first, `limit(100)`. -/
def api_feed_items (s : Store) : List Activity :=
  (orderByCreatedDesc (s.activities.filter (·.is_public))).take 100

/-- One serialized element of the `/api/feed` response
(app.py lines 157-168). -/
structure ApiFeedItem where
  id : Nat
  user : String
  title : String
  description : String
  mood : String
  category : String
  lat : Option Int
  lng : Option Int
  location_text : String
  created_at : Timestamp
deriving DecidableEq

/-- `a.author.name`: the owning user's display name, resolved through the
foreign key (which the store guarantees resolvable; an unresolvable reference
is rendered as the empty name to keep the function total). -/
def authorName (s : Store) (a : Activity) : String :=
  ((s.users.find? (fun u => u.id == a.user_id)).map User.name).getD ""

/-- The `api_feed` route (app.py lines 154-168). -/
def api_feed (s : Store) : List ApiFeedItem :=
  (api_feed_items s).map (fun a =>
    { id := a.id, user := authorName s a, title := a.title,
      description := a.description, mood := a.mood, category := a.category,
      lat := a.latitude, lng := a.longitude,
      location_text := a.location_text, created_at := a.created_at })

/-- The `me` route's query (app.py line 123): the session user's activities,
any visibility, newest first, unbounded. -/
def me_feed (s : Store) (uid : Nat) : List Activity :=
  orderByCreatedDesc (s.activities.filter (fun a => a.user_id == uid))

/-- The `profile` route (app.py lines 148-152): 404 (`none`) when no user has
the requested id, else that user's public activities, newest first. -/
def profile_posts (s : Store) (uid : Nat) : Option (List Activity) :=
  if (s.users.find? (fun u => u.id == uid)).isSome then
    some (orderByCreatedDesc
      (s.activities.filter (fun a => a.user_id == uid && a.is_public)))
  else none

/-- Outcome of the `register` handler (app.py lines 81-97). -/
inductive RegisterOutcome where
  | redirectHome
  | emailTaken
  | created (u : User)
  | formErrors
deriving DecidableEq

/-- The user object the `register` handler constructs on the success path
(app.py lines 90-91). -/
def newUser (st : Store) (f : RegisterFormData) (now : Timestamp) : User :=
  User.set_password
    { id := freshUserId st, name := f.name, email := (str_lower f.email),
      password_hash := "", bio := none, created_at := now }
    f.password

/-- The `register` handler (app.py lines 81-97). State: the store and the
session (`current_user`), threaded explicitly. -/
def register (st : Store) (session : Option Nat) (f : RegisterFormData)
    (now : Timestamp) : RegisterOutcome × Store × Option Nat :=
  if session.isSome then (.redirectHome, st, session)
  else if f.validate then
    if (st.users.find? (fun u => u.email == (str_lower f.email))).isSome then
      (.emailTaken, st, session)
    else
      let u := newUser st f now
      (.created u, { st with users := st.users ++ [u] }, some u.id)
  else (.formErrors, st, session)

/-- Outcome of the `login` handler (app.py lines 99-111). -/
inductive LoginOutcome where
  | redirectHome
  | loggedIn (u : User)
  | invalidCredentials
  | formErrors
deriving DecidableEq

/-- The flash message each `login` outcome surfaces (app.py lines 108, 110). -/
def LoginOutcome.flash : LoginOutcome → Option String
  | .loggedIn _ => some "Logged in successfully."
  | .invalidCredentials => some "Invalid credentials."
  | _ => none

/-- The `login` handler (app.py lines 99-111). -/
def login (st : Store) (session : Option Nat) (f : LoginFormData) :
    LoginOutcome × Option Nat :=
  if session.isSome then (.redirectHome, session)
  else if f.validate then
    match st.users.find? (fun u => u.email == (str_lower f.email)) with
    | some u =>
      if u.check_password f.password then (.loggedIn u, some u.id)
      else (.invalidCredentials, session)
    | none => (.invalidCredentials, session)
  else (.formErrors, session)

/-- Outcome of the `create` handler (app.py lines 126-146);
`redirectLogin` is the `login_required` redirect to
`login_manager.login_view` (app.py line 16). -/
inductive CreateOutcome where
  | redirectLogin
  | posted (a : Activity)
  | formErrors
deriving DecidableEq

/-- The activity the `create` handler constructs (app.py lines 131-141). -/
def newActivity (st : Store) (uid : Nat) (f : ActivityFormData)
    (now : Timestamp) : Activity :=
  { id := freshActivityId st, user_id := uid, title := f.title,
    description := f.description, is_public := f.is_public, mood := f.mood,
    category := f.category, latitude := coalesceFloat f.latitude.processed,
    longitude := coalesceFloat f.longitude.processed,
    location_text := f.location_text, created_at := now }

/-- The `create` handler (app.py lines 126-146). -/
def create (st : Store) (session : Option Nat) (f : ActivityFormData)
    (now : Timestamp) : CreateOutcome × Store :=
  match session with
  | none => (.redirectLogin, st)
  | some uid =>
    if f.validate then
      let a := newActivity st uid f now
      (.posted a, { st with activities := st.activities ++ [a] })
    else (.formErrors, st)

/-- An `Activity` construction that supplies every column the `create`
handler supplies except the visibility flag, which is left to the model
default (app.py line 41). -/
def mkActivityDefaultVisibility (i uid : Nat) (t : String) (now : Timestamp) :
    Activity :=
  { id := i, user_id := uid, title := t, description := "", mood := "",
    category := "", latitude := none, longitude := none, location_text := "",
    created_at := now }

/-- Descending creation-time order, as a proposition on feed results. -/
def sortedDesc (l : List Activity) : Prop :=
  l.Pairwise (fun a b => b.created_at ≤ a.created_at)

/-! ### Theorems -/

/-- C5: the HTML public feed returns at most 50 activities and `/api/feed`
returns at most 100 items, regardless of store contents. -/
theorem C5_feed_caps (s : Store) :
    (home_feed s).length ≤ 50 ∧ (api_feed s).length ≤ 100 := by
  refine ⟨List.length_take_le _ _, ?_⟩
  simp only [api_feed, api_feed_items, List.length_map]
  exact List.length_take_le _ _

/-- C8: a request to the creation endpoint without an active session
redirects to login and leaves the activity store exactly unchanged. -/
theorem C8_create_requires_session (st : Store) (f : ActivityFormData)
    (now : Timestamp) :
    create st none f now = (.redirectLogin, st) := rfl

/-- C10: `/register` and `/login` under an active session redirect to the
home feed without touching the store or the session. -/
theorem C10_authenticated_redirects (st : Store) (uid : Nat)
    (rf : RegisterFormData) (lf : LoginFormData) (now : Timestamp) :
    register st (some uid) rf now = (.redirectHome, st, some uid) ∧
    login st (some uid) lf = (.redirectHome, some uid) := by
  constructor <;> simp [register, login]

/-- C7: a validated login whose email matches no stored user, or whose
password fails verification, yields the single generic invalid-credentials
outcome (same flash message in both cases) and establishes no session. -/
theorem C7_login_generic_failure (st : Store) (f : LoginFormData)
    (hv : f.validate = true)
    (hbad : st.users.find? (fun u => u.email == (str_lower f.email)) = none ∨
      ∃ u, st.users.find? (fun u' => u'.email == (str_lower f.email)) = some u ∧
        u.check_password f.password = false) :
    login st none f = (.invalidCredentials, none) ∧
    (login st none f).1.flash = some "Invalid credentials." := by
  have h1 : login st none f = (.invalidCredentials, none) := by
    rcases hbad with h | ⟨u, hu, hpw⟩
    · simp [login, hv, h]
    · simp [login, hv, hu, hpw]
  exact ⟨h1, by rw [h1]; rfl⟩

theorem C7_login_generic_failure_witness :
    (⟨"ann@x.com", "secret1"⟩ : LoginFormData).validate = true ∧
    login ⟨[], []⟩ none ⟨"ann@x.com", "secret1"⟩ = (.invalidCredentials, none) :=
  ⟨by decide,
   (C7_login_generic_failure ⟨[], []⟩ ⟨"ann@x.com", "secret1"⟩ (by decide)
      (.inl rfl)).1⟩

/-- C2: if some stored user's email equals the lowercased submitted email,
registration never creates a user, never changes the store or the session,
and (on an actual unauthenticated validated submission) fails with the
duplicate-email error. -/
theorem C2_duplicate_email_register (st : Store) (session : Option Nat)
    (f : RegisterFormData) (now : Timestamp)
    (hdup : ∃ u ∈ st.users, u.email = (str_lower f.email)) :
    (register st session f now).2.1 = st ∧
    (register st session f now).2.2 = session ∧
    (∀ u, (register st session f now).1 ≠ .created u) ∧
    (session = none → f.validate = true →
      (register st session f now).1 = .emailTaken) := by
  have hfind : (st.users.find? (fun u => u.email == (str_lower f.email))).isSome := by
    rw [List.find?_isSome]
    obtain ⟨u, hm, he⟩ := hdup
    exact ⟨u, hm, by simp [he]⟩
  cases session with
  | some uid => simp [register]
  | none =>
    by_cases hv : f.validate
    · simp [register, hv, hfind]
    · simp [register, hv]

def exUserC2 : User :=
  { id := 1, name := "Ann", email := "ann@x.com",
    password_hash := "pbkdf2$secret1", bio := none, created_at := 0 }

def exStoreC2 : Store := ⟨[exUserC2], []⟩

def exRegFormC2 : RegisterFormData :=
  ⟨"Bob", "Ann@X.com", "hunter22", "hunter22"⟩

theorem C2_duplicate_email_register_witness :
    (∃ u ∈ exStoreC2.users, u.email = str_lower exRegFormC2.email) ∧
    (register exStoreC2 none exRegFormC2 0).2.1 = exStoreC2 ∧
    (register exStoreC2 none exRegFormC2 0).1 = .emailTaken :=
  ⟨by decide,
   (C2_duplicate_email_register exStoreC2 none exRegFormC2 0 (by decide)).1,
   (C2_duplicate_email_register exStoreC2 none exRegFormC2 0
      (by decide)).2.2.2 rfl (by decide)⟩

def exActFormC6 : ActivityFormData :=
  { title := "Ran 5k", description := "morning run", is_public := true,
    mood := "happy", category := "gym", latitude := .emptyval,
    longitude := .nodata, location_text := "" }

def exActFormC6b : ActivityFormData :=
  { title := "Ran 5k", description := "morning run", is_public := true,
    mood := "happy", category := "gym", latitude := .nodata,
    longitude := .val 5, location_text := "" }

def actC6b : Activity := newActivity ⟨[], []⟩ 1 exActFormC6b 3

/-- C6, evaluated at the failing input: an authenticated creation submission
with the latitude field submitted as the empty string fails form validation
(the `FloatField` coercion error) and persists nothing — the submission IS
rejected for that reason, against the claim. A coordinate field omitted from
the submission altogether does pass validation and is stored as absent,
which is the behavior the claim (and the handler's dead `not in (None, "")`
guard at line 138) intended for the empty case. -/
theorem C6_empty_coordinate_rejected :
    exActFormC6.validate = false ∧
    create ⟨[], []⟩ (some 1) exActFormC6 3 = (.formErrors, ⟨[], []⟩) ∧
    exActFormC6b.validate = true ∧
    create ⟨[], []⟩ (some 1) exActFormC6b 3
      = (.posted actC6b, ⟨[], [actC6b]⟩) ∧
    actC6b.latitude = none := by
  refine ⟨by decide, by decide, by decide, by decide, rfl⟩

def exActFormC9 : ActivityFormData :=
  { title := "Ran 5k", description := "", is_public := false, mood := "",
    category := "", latitude := .nodata, longitude := .nodata,
    location_text := "" }

/-- C9 counterexample: a valid creation submission with the visibility
checkbox unchecked (`is_public` data `false`, i.e. no affirmative visibility
choice) produces an activity stored with visibility `false`, not the claimed
default `true`. -/
theorem C9_counterexample :
    exActFormC9.is_public = false ∧
    (create ⟨[], []⟩ (some 1) exActFormC9 3).1
      = .posted (newActivity ⟨[], []⟩ 1 exActFormC9 3) ∧
    (newActivity ⟨[], []⟩ 1 exActFormC9 3).is_public = false :=
  ⟨rfl, by decide, rfl⟩

/-- C9 amended: the model-level default `True` for the visibility column
applies only to constructions that omit the flag; the `create` handler always
supplies the submitted checkbox value, so a form-created activity stores
exactly that value (`false` when the box is unchecked). -/
theorem C9_amended_visibility (st : Store) (uid i u2 : Nat)
    (f : ActivityFormData) (now t2 : Timestamp) (s : String) :
    (mkActivityDefaultVisibility i u2 s t2).is_public = true ∧
    (∀ a st', create st (some uid) f now = (.posted a, st') →
      a.is_public = f.is_public) := by
  refine ⟨rfl, fun a st' h => ?_⟩
  by_cases hv : f.validate
  · simp only [create, hv, if_true] at h
    have ha' : newActivity st uid f now = a := by
      cases h
      rfl
    rw [← ha']
    rfl
  · simp [create, hv] at h

def actC9 : Activity := newActivity ⟨[], []⟩ 1 exActFormC9 3

def stC9 : Store := ⟨[], [actC9]⟩

theorem C9_amended_visibility_witness :
    (mkActivityDefaultVisibility 1 1 "Ran 5k" 3).is_public = true ∧
    actC9.is_public = exActFormC9.is_public :=
  ⟨(C9_amended_visibility ⟨[], []⟩ 1 1 1 exActFormC9 3 3 "Ran 5k").1,
   (C9_amended_visibility ⟨[], []⟩ 1 1 1 exActFormC9 3 3 "Ran 5k").2 actC9 stC9
     (by decide)⟩

/-- C1: an activity whose visibility flag is `false` never appears in the
home feed, the API feed query, or any profile page; the owner's own `/me`
feed does return it. -/
theorem C1_private_hidden (s : Store) (a : Activity)
    (hpriv : a.is_public = false) :
    a ∉ home_feed s ∧ a ∉ api_feed_items s ∧
    (∀ uid posts, profile_posts s uid = some posts → a ∉ posts) ∧
    (∀ uid, a ∈ s.activities → a.user_id = uid → a ∈ me_feed s uid) := by
  have hmain : ∀ n,
      a ∉ (orderByCreatedDesc (s.activities.filter (·.is_public))).take n := by
    intro n hmem
    have h := List.mem_of_mem_take hmem
    rw [orderByCreatedDesc, List.mem_mergeSort, List.mem_filter, hpriv] at h
    exact absurd h.2 (by simp)
  refine ⟨hmain 50, hmain 100, ?_, ?_⟩
  · intro uid posts hp hmem
    rw [profile_posts] at hp
    split at hp
    · injection hp with hp
      subst hp
      rw [orderByCreatedDesc, List.mem_mergeSort, List.mem_filter, hpriv] at hmem
      simp at hmem
    · cases hp
  · intro uid hmem huid
    rw [me_feed, orderByCreatedDesc, List.mem_mergeSort, List.mem_filter]
    exact ⟨hmem, by simp [huid]⟩

def actPrivC1 : Activity :=
  { id := 1, user_id := 7, title := "Private note", description := "",
    is_public := false, mood := "", category := "", latitude := none,
    longitude := none, location_text := "", created_at := 2 }

def exStoreC1 : Store := ⟨[], [actPrivC1]⟩

theorem C1_private_hidden_witness :
    actPrivC1.is_public = false ∧ actPrivC1 ∉ home_feed exStoreC1 ∧
    actPrivC1 ∉ api_feed_items exStoreC1 ∧ actPrivC1 ∈ me_feed exStoreC1 7 :=
  ⟨rfl, (C1_private_hidden exStoreC1 actPrivC1 rfl).1,
   (C1_private_hidden exStoreC1 actPrivC1 rfl).2.1,
   (C1_private_hidden exStoreC1 actPrivC1 rfl).2.2.2 7 (by decide) rfl⟩

/-- C3: a valid registration on a store without the normalized email creates
the user, who is then found by lookup on the normalized email, whose stored
hash verifies the original password, and for whom a fresh login with the same
credentials succeeds and establishes a session. -/
theorem C3_register_login_roundtrip (st : Store) (f : RegisterFormData)
    (now : Timestamp) (hv : f.validate = true)
    (habs : ∀ u ∈ st.users, u.email ≠ str_lower f.email) :
    (register st none f now).1 = .created (newUser st f now) ∧
    (register st none f now).2.1.users.find?
      (fun v => v.email == str_lower f.email) = some (newUser st f now) ∧
    (newUser st f now).check_password f.password = true ∧
    login (register st none f now).2.1 none ⟨f.email, f.password⟩
      = (.loggedIn (newUser st f now), some (newUser st f now).id) := by
  have hfn : st.users.find? (fun u => u.email == str_lower f.email) = none := by
    rw [List.find?_eq_none]
    intro x hx
    simpa using habs x hx
  have hreg : register st none f now
      = (.created (newUser st f now),
         { st with users := st.users ++ [newUser st f now] },
         some (newUser st f now).id) := by
    simp [register, hv, hfn]
  have hemail : (newUser st f now).email = str_lower f.email := rfl
  have hfind2 : (st.users ++ [newUser st f now]).find?
      (fun v => v.email == str_lower f.email) = some (newUser st f now) := by
    rw [List.find?_append, hfn, Option.none_or]
    simp [hemail]
  have hchk : (newUser st f now).check_password f.password = true := by
    simp [newUser, User.set_password, User.check_password, check_password_hash]
  simp only [RegisterFormData.validate, Bool.and_eq_true] at hv
  obtain ⟨⟨⟨⟨⟨⟨⟨⟨hva, hvb⟩, hvc⟩, hvd⟩, hve⟩, hvf⟩, hvg⟩, hvh⟩, hvi⟩ := hv
  have hv' : (⟨f.email, f.password⟩ : LoginFormData).validate = true := by
    simp [LoginFormData.validate, hvc, hvd, hvf]
  have hlogin : login { st with users := st.users ++ [newUser st f now] } none
      ⟨f.email, f.password⟩
      = (.loggedIn (newUser st f now), some (newUser st f now).id) := by
    simp [login, hv', hfind2, hchk]
  refine ⟨by rw [hreg], ?_, hchk, ?_⟩
  · rw [hreg]
    exact hfind2
  · rw [hreg]
    exact hlogin

def exRegFormC3 : RegisterFormData :=
  ⟨"Ann", "ann@x.com", "secret1", "secret1"⟩

theorem C3_register_login_roundtrip_witness :
    exRegFormC3.validate = true ∧
    login (register ⟨[], []⟩ none exRegFormC3 0).2.1 none
        ⟨"ann@x.com", "secret1"⟩
      = (.loggedIn (newUser ⟨[], []⟩ exRegFormC3 0),
         some (newUser ⟨[], []⟩ exRegFormC3 0).id) :=
  ⟨by decide,
   (C3_register_login_roundtrip ⟨[], []⟩ exRegFormC3 0 (by decide)
     (by simp)).2.2.2⟩

/-- The descending-creation-time sort is sorted (helper). -/
theorem sortedDesc_orderByCreatedDesc (l : List Activity) :
    sortedDesc (orderByCreatedDesc l) := by
  have h := @List.sorted_mergeSort Activity
    (fun a b : Activity => decide (b.created_at ≤ a.created_at))
    (fun a b c h1 h2 =>
      decide_eq_true (Nat.le_trans (of_decide_eq_true h2) (of_decide_eq_true h1)))
    (fun a b =>
      (Nat.le_total b.created_at a.created_at).elim
        (fun h => Bool.or_eq_true_iff.mpr (Or.inl (decide_eq_true h)))
        (fun h => Bool.or_eq_true_iff.mpr (Or.inr (decide_eq_true h)))) l
  exact h.imp (fun hab => of_decide_eq_true hab)

/-- Prefixes of sorted feeds stay sorted (helper). -/
theorem sortedDesc_take (l : List Activity) (n : Nat) (h : sortedDesc l) :
    sortedDesc (l.take n) :=
  List.Pairwise.sublist (List.take_sublist n l) h

/-- C4: every feed (home, API, own) is ordered by creation time descending,
and on three activities created at T1 < T2 < T3 the public feed returns
exactly the order T3, T2, T1. -/
theorem C4_feed_ordering (s : Store) (uid : Nat) :
    sortedDesc (home_feed s) ∧ sortedDesc (api_feed_items s) ∧
    sortedDesc (me_feed s uid) ∧
    (∀ us a1 a2 a3, a1.is_public = true → a2.is_public = true →
      a3.is_public = true → a1.created_at < a2.created_at →
      a2.created_at < a3.created_at →
      home_feed ⟨us, [a1, a2, a3]⟩ = [a3, a2, a1]) := by
  refine ⟨sortedDesc_take _ _ (sortedDesc_orderByCreatedDesc _),
    sortedDesc_take _ _ (sortedDesc_orderByCreatedDesc _),
    sortedDesc_orderByCreatedDesc _, ?_⟩
  intro us a1 a2 a3 h1 h2 h3 h12 h23
  have hfilter : ([a1, a2, a3].filter (·.is_public)) = [a1, a2, a3] := by
    simp [List.filter, h1, h2, h3]
  have hperm : List.Perm (orderByCreatedDesc [a1, a2, a3]) [a1, a2, a3] :=
    List.mergeSort_perm _ _
  have hsorted : sortedDesc (orderByCreatedDesc [a1, a2, a3]) :=
    sortedDesc_orderByCreatedDesc _
  have hpair123 : ([a1, a2, a3] : List Activity).Pairwise
      (fun a b => a.created_at ≠ b.created_at) := by
    refine List.Pairwise.cons (fun b hb => ?_)
      (List.Pairwise.cons (fun b hb => ?_) (List.pairwise_singleton _ _))
    · rcases List.mem_cons.mp hb with rfl | hb2
      · exact Nat.ne_of_lt h12
      · rcases List.mem_singleton.mp hb2 with rfl
        exact Nat.ne_of_lt (Nat.lt_trans h12 h23)
    · rcases List.mem_singleton.mp hb with rfl
      exact Nat.ne_of_lt h23
  have hne : (orderByCreatedDesc [a1, a2, a3]).Pairwise
      (fun a b => a.created_at ≠ b.created_at) :=
    (List.Perm.pairwise_iff (fun h => Ne.symm h) hperm).mpr hpair123
  have hstrict : (orderByCreatedDesc [a1, a2, a3]).Pairwise
      (fun a b => b.created_at < a.created_at) :=
    (hsorted.and hne).imp (fun hab => by
      obtain ⟨hle, hne'⟩ := hab
      exact Nat.lt_of_le_of_ne hle fun h => hne' h.symm)
  have htarget : ([a3, a2, a1] : List Activity).Pairwise
      (fun a b => b.created_at < a.created_at) := by
    refine List.Pairwise.cons (fun b hb => ?_)
      (List.Pairwise.cons (fun b hb => ?_) (List.pairwise_singleton _ _))
    · rcases List.mem_cons.mp hb with rfl | hb2
      · exact h23
      · rcases List.mem_singleton.mp hb2 with rfl
        exact Nat.lt_trans h12 h23
    · rcases List.mem_singleton.mp hb with rfl
      exact h12
  have hperm2 : List.Perm (orderByCreatedDesc [a1, a2, a3]) [a3, a2, a1] := by
    refine hperm.trans ?_
    simpa using List.reverse_perm [a3, a2, a1]
  haveI : IsAntisymm Activity (fun a b => b.created_at < a.created_at) :=
    ⟨fun a b hab hba => absurd (Nat.lt_trans hab hba) (Nat.lt_irrefl _)⟩
  have heq : orderByCreatedDesc [a1, a2, a3] = [a3, a2, a1] :=
    List.eq_of_perm_of_sorted hperm2 hstrict htarget
  show (orderByCreatedDesc
    ((⟨us, [a1, a2, a3]⟩ : Store).activities.filter (·.is_public))).take 50
      = [a3, a2, a1]
  rw [show (⟨us, [a1, a2, a3]⟩ : Store).activities = [a1, a2, a3] from rfl,
    hfilter, heq]
  rfl

def actT1 : Activity :=
  { id := 1, user_id := 1, title := "first", description := "",
    is_public := true, mood := "", category := "", latitude := none,
    longitude := none, location_text := "", created_at := 1 }

def actT2 : Activity :=
  { id := 2, user_id := 1, title := "second", description := "",
    is_public := true, mood := "", category := "", latitude := none,
    longitude := none, location_text := "", created_at := 2 }

def actT3 : Activity :=
  { id := 3, user_id := 1, title := "third", description := "",
    is_public := true, mood := "", category := "", latitude := none,
    longitude := none, location_text := "", created_at := 3 }

theorem C4_feed_ordering_witness :
    home_feed ⟨[], [actT1, actT2, actT3]⟩ = [actT3, actT2, actT1] :=
  (C4_feed_ordering ⟨[], [actT1, actT2, actT3]⟩ 0).2.2.2 [] actT1 actT2 actT3
    rfl rfl rfl (by decide) (by decide)
